import Mathlib

/-!
Verification development for a small team task-management backend
(Express route handlers performing parameterized SQL over Postgres).

The database state is embedded shallowly: each table is a list of rows,
and each route handler becomes a pure function
`DB → Except ApiError DB` (or returning extra payload).  A handler that
answers an error before committing leaves the database untouched, which
models `ROLLBACK`; a transaction is modelled as a single atomic step, so
check-then-write sequences inside one transaction appear as one function.
External collaborators (bcrypt hashing/compare, JWT signing, `NOW()`,
SERIAL id generation) are passed in as parameters, mirroring the spec's
out-of-scope boundary.  Foreign-key enforcement is the database engine's
job (out of scope); the handlers themselves never check it.
-/

/-- A row of the `users` table (`db.js` schema plus the approval columns). -/
structure UserRow where
  id : Nat
  email : String
  password : String
  name : String
  role : String
  team_code : String
  status : String
  approved_by : Option Nat
  approved_at : Option Nat
  rejected_by : Option Nat
  rejected_at : Option Nat
  updated_at : Nat
deriving Repr, DecidableEq

/-- A row of the `teams` table. -/
structure TeamRow where
  id : Nat
  team_code : String
  team_name : String
  leader_id : Option Nat
deriving Repr, DecidableEq

/-- A row of the `tasks` table. -/
structure TaskRow where
  id : Nat
  title : String
  description : Option String
  team_code : String
  created_by : Option Nat
  status : String
deriving Repr, DecidableEq

/-- A row of the `subtasks` table. -/
structure SubtaskRow where
  id : Nat
  task_id : Nat
  title : String
  description : Option String
  assigned_to : Option Nat
  status : String
  progress : String
  deadline : Option Nat
deriving Repr, DecidableEq

/-- The whole database state. -/
structure DB where
  users : List UserRow
  teams : List TeamRow
  tasks : List TaskRow
  subtasks : List SubtaskRow
deriving Repr, DecidableEq

/-- An error response `{error: msg}` with its HTTP status code family. -/
inductive ApiError where
  | badRequest (msg : String)
  | unauthorized (msg : String)
  | forbidden (msg : String)
  | notFound (msg : String)
deriving Repr, DecidableEq

/-- The HTTP status code carried by each error constructor. -/
def ApiError.code : ApiError → Nat
  | .badRequest _ => 400
  | .unauthorized _ => 401
  | .forbidden _ => 403
  | .notFound _ => 404

/-- `PUT /api/tasks/subtask/:subtaskId/take` (routes/tasks.js).
Inside one transaction: `SELECT * FROM subtasks WHERE id = $1 FOR UPDATE`,
404 if absent, 400 if status is not `available`, otherwise
`UPDATE subtasks SET assigned_to, status, progress WHERE id = $4 RETURNING *`.
The transaction is one atomic step here; an error result models rollback. -/
def takeSubtask (db : DB) (subtaskId : Nat) (userId : Option Nat) :
    Except ApiError (DB × SubtaskRow) :=
  match userId with
  | none => .error (.badRequest "User ID is required")
  | some uid =>
    match db.subtasks.find? (fun s => s.id == subtaskId) with
    | none => .error (.notFound "Subtask not found")
    | some s =>
      if s.status != "available" then
        .error (.badRequest "This subtask is no longer available")
      else
        .ok ({ db with subtasks := db.subtasks.map (fun r =>
                 if r.id == subtaskId then
                   { r with assigned_to := some uid, status := "taken",
                            progress := "in_progress" }
                 else r) },
             { s with assigned_to := some uid, status := "taken",
                      progress := "in_progress" })

/-- `PUT /api/tasks/subtask/:subtaskId/assign-to` (routes/tasks.js).
Validates only presence of `userId` and `assignedBy`, then runs an
unconditional `UPDATE subtasks SET assigned_to, status, progress
WHERE id = $4 RETURNING *`; 404 if no row had that id. -/
def assignSubtask (db : DB) (subtaskId : Nat)
    (userId assignedBy : Option Nat) : Except ApiError DB :=
  match userId, assignedBy with
  | some uid, some _ =>
    if (db.subtasks.filter (fun s => s.id == subtaskId)).isEmpty then
      .error (.notFound "Subtask not found")
    else
      .ok { db with subtasks := db.subtasks.map (fun r =>
              if r.id == subtaskId then
                { r with assigned_to := some uid, status := "assigned",
                         progress := "assigned" }
              else r) }
  | _, _ => .error (.badRequest "User ID and assignedBy are required")

/-- The join `subtasks s JOIN tasks t ON s.task_id = t.id WHERE s.id = $1`,
returning its first row, as used by the progress handler. -/
def findSubtaskWithTask (db : DB) (subtaskId : Nat) :
    Option (SubtaskRow × TaskRow) :=
  match db.subtasks.find? (fun s => s.id == subtaskId) with
  | none => none
  | some s =>
    match db.tasks.find? (fun t => t.id == s.task_id) with
    | none => none
    | some t => some (s, t)

/-- The status value the progress handler computes from the requested
progress and the previously read status (routes/tasks.js). -/
def progressStatus (p oldStatus : String) : String :=
  if p == "completed" then "completed"
  else if p == "in_progress" && oldStatus == "assigned" then "taken"
  else oldStatus

/-- `PUT /api/tasks/subtask/:subtaskId/progress` (routes/tasks.js).
Reads the subtask joined with its task (404 if absent), reads the caller
(403 if absent), authorizes assignee / team leader / task creator
(403 otherwise), then updates `progress` and, in a second statement, the
status computed by `progressStatus`.  The two sequential UPDATEs on the
same row appear as one combined row update. -/
def updateProgress (db : DB) (subtaskId : Nat)
    (progress : Option String) (userId : Option Nat) : Except ApiError DB :=
  match progress, userId with
  | some p, some uid =>
    match findSubtaskWithTask db subtaskId with
    | none => .error (.notFound "Subtask not found")
    | some (s, t) =>
      match db.users.find? (fun u => u.id == uid) with
      | none => .error (.forbidden "User not found")
      | some u =>
        let isOwner := s.assigned_to == some uid
        let isLeader := u.role == "leader" && u.team_code == t.team_code
        let isTaskCreator := t.created_by == some uid
        if !isOwner && !isLeader && !isTaskCreator then
          .error (.forbidden "Not authorized to update this subtask")
        else
          .ok { db with subtasks := db.subtasks.map (fun r =>
                  if r.id == subtaskId then
                    { r with progress := p,
                             status := progressStatus p s.status }
                  else r) }
  | _, _ => .error (.badRequest "Progress and user ID are required")

/-- The token payload `{userId, email, role}` signed by the login route. -/
structure TokenPayload where
  userId : Nat
  email : String
  role : String
deriving Repr, DecidableEq

/-- The session token: payload plus expiry.  Signing itself is the JWT
library (an out-of-scope collaborator); the server secret and signature
are abstracted away, the embedded payload and expiry are kept. -/
structure Token where
  payload : TokenPayload
  expiresInHours : Nat
deriving Repr, DecidableEq

/-- The user record with the password-hash field removed, as returned by
login (`const \x7b password: _, ...userWithoutPassword \x7d = user`). -/
structure UserSansPassword where
  id : Nat
  email : String
  name : String
  role : String
  team_code : String
  status : String
  approved_by : Option Nat
  approved_at : Option Nat
  rejected_by : Option Nat
  rejected_at : Option Nat
  updated_at : Nat
deriving Repr, DecidableEq

/-- Drop the password field of a user row. -/
def UserRow.sansPassword (u : UserRow) : UserSansPassword :=
  { id := u.id, email := u.email, name := u.name, role := u.role,
    team_code := u.team_code, status := u.status,
    approved_by := u.approved_by, approved_at := u.approved_at,
    rejected_by := u.rejected_by, rejected_at := u.rejected_at,
    updated_at := u.updated_at }

/-- `POST /api/auth/login` (routes/auth.js).  `bcmp` is bcrypt.compare
(plain password against stored hash), an external collaborator. -/
def login (db : DB) (bcmp : String → String → Bool)
    (email password teamCode : String) :
    Except ApiError (UserSansPassword × Token) :=
  match db.users.find? (fun u => u.email == email && u.team_code == teamCode) with
  | none => .error (.unauthorized "Invalid credentials")
  | some u =>
    if !(bcmp password u.password) then
      .error (.unauthorized "Invalid credentials")
    else if u.role == "member" && u.status != "approved" then
      if u.status == "pending" then
        .error (.forbidden "Your membership is pending approval from the team leader")
      else if u.status == "rejected" then
        .error (.forbidden "Your membership request was rejected. Please contact your team leader.")
      else
        .ok (u.sansPassword, ⟨⟨u.id, u.email, u.role⟩, 24⟩)
    else
      .ok (u.sansPassword, ⟨⟨u.id, u.email, u.role⟩, 24⟩)

/-- `POST /api/auth/register-member` (routes/auth.js).  `now`, `newId`
and the bcrypt hash are external inputs (clock, SERIAL, hash library). -/
def registerMember (db : DB) (now newId : Nat) (hashedPassword : String)
    (email name teamCode : String) : Except ApiError DB :=
  if (db.teams.find? (fun t => t.team_code == teamCode)).isNone then
    .error (.badRequest "Invalid team code")
  else if (db.users.find? (fun u => u.email == email)).isSome then
    .error (.badRequest "User already exists")
  else
    .ok { db with users := db.users ++
            [{ id := newId, email := email, password := hashedPassword,
               name := name, role := "member", team_code := teamCode,
               status := "pending", approved_by := none, approved_at := none,
               rejected_by := none, rejected_at := none, updated_at := now }] }

/-- The WHERE clause of the approve-member and reject-member UPDATEs:
`id = $3 AND team_code = $4 AND role = 'member'`.  Note: no condition on
the current status. -/
def memberWhere (uid : Nat) (tc : String) (u : UserRow) : Bool :=
  u.id == uid && u.team_code == tc && u.role == "member"

/-- The SET list of approve-member:
`status='approved', approved_by=$2, approved_at=NOW(), updated_at=NOW()`. -/
def approveSet (now aby : Nat) (u : UserRow) : UserRow :=
  { u with status := "approved", approved_by := some aby,
           approved_at := some now, updated_at := now }

/-- `POST /api/auth/approve-member` (routes/auth.js): one UPDATE guarded
by `memberWhere`; zero affected rows roll back and answer 404. -/
def approveMember (db : DB) (now : Nat) (userId : Option Nat)
    (teamCode : Option String) (approvedBy : Option Nat) :
    Except ApiError DB :=
  match userId, teamCode, approvedBy with
  | some uid, some tc, some aby =>
    if (db.users.filter (memberWhere uid tc)).isEmpty then
      .error (.notFound "User not found or already processed")
    else
      .ok { db with users := db.users.map (fun u =>
              if memberWhere uid tc u then approveSet now aby u else u) }
  | _, _, _ => .error (.badRequest "Missing required fields")

/-- The SET list of reject-member:
`status='rejected', rejected_by=$2, rejected_at=NOW(), updated_at=NOW()`. -/
def rejectSet (now rby : Nat) (u : UserRow) : UserRow :=
  { u with status := "rejected", rejected_by := some rby,
           rejected_at := some now, updated_at := now }

/-- `POST /api/auth/reject-member` (routes/auth.js): one UPDATE guarded
by `memberWhere`; zero affected rows roll back and answer 404. -/
def rejectMember (db : DB) (now : Nat) (userId : Option Nat)
    (teamCode : Option String) (rejectedBy : Option Nat) :
    Except ApiError DB :=
  match userId, teamCode, rejectedBy with
  | some uid, some tc, some rby =>
    if (db.users.filter (memberWhere uid tc)).isEmpty then
      .error (.notFound "User not found or already processed")
    else
      .ok { db with users := db.users.map (fun u =>
              if memberWhere uid tc u then rejectSet now rby u else u) }
  | _, _, _ => .error (.badRequest "Missing required fields")

/-- The WHERE clause of approve-rejected-member:
`id = $3 AND team_code = $4 AND status = 'rejected' AND role = 'member'`
— unlike `memberWhere` it does condition on the current status. -/
def reApproveWhere (uid : Nat) (tc : String) (u : UserRow) : Bool :=
  u.id == uid && u.team_code == tc && u.status == "rejected" && u.role == "member"

/-- The SET list of approve-rejected-member. -/
def reApproveSet (now aby : Nat) (u : UserRow) : UserRow :=
  { u with status := "approved", approved_by := some aby,
           approved_at := some now, rejected_by := none,
           rejected_at := none, updated_at := now }

/-- `POST /api/auth/approve-rejected-member` (routes/auth.js). -/
def reApprove (db : DB) (now : Nat) (userId : Option Nat)
    (teamCode : Option String) (approvedBy : Option Nat) :
    Except ApiError DB :=
  match userId, teamCode, approvedBy with
  | some uid, some tc, some aby =>
    if (db.users.filter (reApproveWhere uid tc)).isEmpty then
      .error (.notFound "Rejected member not found or already processed")
    else
      .ok { db with users := db.users.map (fun u =>
              if reApproveWhere uid tc u then reApproveSet now aby u else u) }
  | _, _, _ => .error (.badRequest "Missing required fields")

/-- The per-row effect of
`UPDATE subtasks SET assigned_to = NULL, status = 'available'
 WHERE assigned_to = $2` in the delete-member transaction. -/
def releaseSubtask (memberId : Nat) (s : SubtaskRow) : SubtaskRow :=
  if s.assigned_to == some memberId then
    { s with assigned_to := none, status := "available" }
  else s

/-- `DELETE /api/auth/team/:teamCode/member/:memberId` (routes/auth.js).
Leader verification, self-deletion rejection, member lookup, then one
transaction releasing the member's subtasks and deleting the user row. -/
def deleteTeamMember (db : DB) (teamCode : String) (memberId : Nat)
    (leaderId : Option Nat) : Except ApiError DB :=
  match leaderId with
  | none => .error (.badRequest "Leader ID is required")
  | some lid =>
    match db.users.find? (fun u =>
        u.id == lid && u.team_code == teamCode && u.role == "leader") with
    | none => .error (.forbidden "Only team leader can delete members")
    | some _ =>
      if memberId == lid then
        .error (.badRequest "Cannot delete yourself")
      else
        match db.users.find? (fun u =>
            u.id == memberId && u.team_code == teamCode && u.role == "member") with
        | none => .error (.notFound "Member not found in your team")
        | some _ =>
          .ok { db with
                subtasks := db.subtasks.map (releaseSubtask memberId),
                users := db.users.filter (fun u => u.id != memberId) }

/-- The subtasks of one task (`s.task_id = t.id`). -/
def subtasksOf (db : DB) (taskId : Nat) : List SubtaskRow :=
  db.subtasks.filter (fun s => s.task_id == taskId)

/-- Rows of `tasks t LEFT JOIN subtasks s ON t.id = s.task_id` contributed
by one task: a single null-extended row when the task has no subtasks,
otherwise one row per subtask. -/
def leftJoinRows (db : DB) (t : TaskRow) : List (Option SubtaskRow) :=
  if (subtasksOf db t.id).isEmpty then [none]
  else (subtasksOf db t.id).map some

/-- SQL `s.status != 'completed'` over a possibly null-extended row:
the comparison with NULL is unknown, so the row is filtered out. -/
def sqlStatusNeCompleted (r : Option SubtaskRow) : Bool :=
  match r with
  | none => false
  | some s => s.status != "completed"

/-- SQL `s.status IS NULL` over a possibly null-extended row.  A subtask
row present in the table always carries a concrete status string (every
insert path supplies one), so this holds only for the null-extended row
of a task without subtasks. -/
def sqlStatusIsNull (r : Option SubtaskRow) : Bool :=
  r.isNone

/-- SQL `s.status = 'completed'` over a possibly null-extended row. -/
def sqlStatusEqCompleted (r : Option SubtaskRow) : Bool :=
  match r with
  | none => false
  | some s => s.status == "completed"

/-- Whether the FIRST `GET /team/:teamCode/status/:status` definition
keeps a task: its extra condition is `AND s.status != 'completed'` for
`active`, `AND s.status = 'completed'` for `completed`, nothing
otherwise; `SELECT DISTINCT t.*` keeps the task when some join row
passes. -/
def taskPassesV1 (db : DB) (status : String) (t : TaskRow) : Bool :=
  if status == "active" then
    (leftJoinRows db t).any sqlStatusNeCompleted
  else if status == "completed" then
    (leftJoinRows db t).any sqlStatusEqCompleted
  else true

/-- Whether the SECOND `GET /team/:teamCode/status/:status` definition
keeps a task: its `active` condition adds `OR s.status IS NULL`. -/
def taskPassesV2 (db : DB) (status : String) (t : TaskRow) : Bool :=
  if status == "active" then
    (leftJoinRows db t).any (fun r => sqlStatusNeCompleted r || sqlStatusIsNull r)
  else if status == "completed" then
    (leftJoinRows db t).any sqlStatusEqCompleted
  else true

/-- Task list computed by the first status-route definition
(routes/tasks.js, first occurrence). -/
def listTasksByStatusV1 (db : DB) (teamCode status : String) : List TaskRow :=
  db.tasks.filter (fun t => t.team_code == teamCode && taskPassesV1 db status t)

/-- Task list computed by the second status-route definition
(routes/tasks.js, second occurrence). -/
def listTasksByStatusV2 (db : DB) (teamCode status : String) : List TaskRow :=
  db.tasks.filter (fun t => t.team_code == teamCode && taskPassesV2 db status t)

/-- Sample fixture: leader of team AB12CD. -/
def leaderAlice : UserRow :=
  { id := 1, email := "a@x.com", password := "hash:pwA", name := "Alice",
    role := "leader", team_code := "AB12CD", status := "approved",
    approved_by := none, approved_at := none,
    rejected_by := none, rejected_at := none, updated_at := 0 }

/-- Sample fixture: approved member of team AB12CD. -/
def memberBob : UserRow :=
  { id := 2, email := "b@x.com", password := "hash:pwB", name := "Bob",
    role := "member", team_code := "AB12CD", status := "approved",
    approved_by := some 1, approved_at := some 5,
    rejected_by := none, rejected_at := none, updated_at := 5 }

/-- Sample fixture: pending member of team AB12CD. -/
def memberCara : UserRow :=
  { id := 3, email := "c@x.com", password := "hash:pwC", name := "Cara",
    role := "member", team_code := "AB12CD", status := "pending",
    approved_by := none, approved_at := none,
    rejected_by := none, rejected_at := none, updated_at := 1 }

/-- Sample fixture: approved member of a different team ZZ99ZZ. -/
def memberDan : UserRow :=
  { id := 4, email := "d@x.com", password := "hash:pwD", name := "Dan",
    role := "member", team_code := "ZZ99ZZ", status := "approved",
    approved_by := some 9, approved_at := some 2,
    rejected_by := none, rejected_at := none, updated_at := 2 }

/-- Sample fixture: an available subtask of task 1. -/
def subAvail : SubtaskRow :=
  { id := 1, task_id := 1, title := "s1", description := some "d1",
    assigned_to := none, status := "available", progress := "not_started",
    deadline := none }

/-- Sample fixture: a taken subtask of task 1, assigned to Bob. -/
def subTaken : SubtaskRow :=
  { id := 2, task_id := 1, title := "s2", description := none,
    assigned_to := some 2, status := "taken", progress := "in_progress",
    deadline := some 99 }

/-- Sample fixture: a completed subtask of task 1, assigned to Bob. -/
def subDone : SubtaskRow :=
  { id := 3, task_id := 1, title := "s3", description := none,
    assigned_to := some 2, status := "completed", progress := "completed",
    deadline := none }

/-- Sample fixture database. Task 1 has three subtasks; task 2 has none. -/
def fixtureDb : DB :=
  { users := [leaderAlice, memberBob, memberCara, memberDan],
    teams := [{ id := 1, team_code := "AB12CD", team_name := "TeamA",
                leader_id := some 1 },
              { id := 2, team_code := "ZZ99ZZ", team_name := "TeamZ",
                leader_id := some 9 }],
    tasks := [{ id := 1, title := "t1", description := none,
                team_code := "AB12CD", created_by := some 1,
                status := "active" },
              { id := 2, title := "t2", description := none,
                team_code := "AB12CD", created_by := some 1,
                status := "active" }],
    subtasks := [subAvail, subTaken, subDone] }

/-- If some element of `l` satisfies `p`, then `l.filter p` is not empty. -/
theorem filter_isEmpty_false_of_mem {α : Type} {p : α → Bool} {l : List α}
    {a : α} (ha : a ∈ l) (hp : p a = true) : (l.filter p).isEmpty = false := by
  have hmem : a ∈ l.filter p := List.mem_filter.mpr ⟨ha, hp⟩
  cases hfe : (l.filter p).isEmpty
  · rfl
  · rw [List.isEmpty_iff] at hfe
    rw [hfe] at hmem
    cases hmem

/-- If no element of `l` satisfies `p`, then `l.filter p` is empty. -/
theorem filter_isEmpty_of_forall_false {α : Type} {p : α → Bool} {l : List α}
    (h : ∀ a ∈ l, p a = false) : (l.filter p).isEmpty = true := by
  rw [List.isEmpty_iff]
  apply List.filter_eq_nil_iff.mpr
  intro a ha
  simp [h a ha]

/-- **C1.** `takeSubtask` with a userId: 404 and no change when the subtask
does not exist; 400 "no longer available" and no change when its status is
not `available`; otherwise success, setting exactly
{status taken, progress in_progress, assigned_to userId} on that row.  An
error result carries no database, modelling rollback; the availability
check and the write are one atomic step of the embedding, modelling the
lock-then-check-then-write transaction. -/
theorem takeSubtask_contract (db : DB) (sid uid : Nat) :
    (db.subtasks.find? (fun s => s.id == sid) = none →
      takeSubtask db sid (some uid) = .error (ApiError.notFound "Subtask not found"))
    ∧ (∀ s0, db.subtasks.find? (fun s => s.id == sid) = some s0 →
        s0.status ≠ "available" →
      takeSubtask db sid (some uid) =
        .error (ApiError.badRequest "This subtask is no longer available"))
    ∧ (∀ s0, db.subtasks.find? (fun s => s.id == sid) = some s0 →
        s0.status = "available" →
      takeSubtask db sid (some uid) =
        .ok ({ db with subtasks := db.subtasks.map (fun r =>
                 if r.id == sid then
                   { r with assigned_to := some uid, status := "taken",
                            progress := "in_progress" }
                 else r) },
             { s0 with assigned_to := some uid, status := "taken",
                       progress := "in_progress" })) := by
  refine ⟨fun h => ?_, fun s0 h hs => ?_, fun s0 h hs => ?_⟩
  · simp [takeSubtask, h]
  · simp [takeSubtask, h, hs]
  · simp [takeSubtask, h, hs]

/-- Witness for `takeSubtask_contract`: Cara (id 3) takes the available
subtask 1 of the fixture database. -/
theorem takeSubtask_contract_witness :
    takeSubtask fixtureDb 1 (some 3) =
      .ok ({ fixtureDb with subtasks := fixtureDb.subtasks.map (fun r =>
               if r.id == 1 then
                 { r with assigned_to := some 3, status := "taken",
                          progress := "in_progress" }
               else r) },
           { subAvail with assigned_to := some 3, status := "taken",
                           progress := "in_progress" }) :=
  (takeSubtask_contract fixtureDb 1 3).2.2 subAvail (by rfl) rfl

/-- **C10.** `assignSubtask` validates only that `userId` and `assignedBy`
are present; for every existing subtask, in any prior status (including
taken and completed), it overwrites the row to {status assigned,
progress assigned, assigned_to userId}; and its outcome is completely
independent of the users table, so `assignedBy` is never verified. -/
theorem assignSubtask_overwrite (db : DB) (sid uid aby : Nat) :
    assignSubtask db sid none (some aby) =
      .error (ApiError.badRequest "User ID and assignedBy are required")
    ∧ assignSubtask db sid (some uid) none =
      .error (ApiError.badRequest "User ID and assignedBy are required")
    ∧ (∀ s0, s0 ∈ db.subtasks → s0.id = sid →
      assignSubtask db sid (some uid) (some aby) =
        .ok { db with subtasks := db.subtasks.map (fun r =>
                if r.id == sid then
                  { r with assigned_to := some uid, status := "assigned",
                           progress := "assigned" }
                else r) })
    ∧ (∀ us, assignSubtask { db with users := us } sid (some uid) (some aby) =
        (assignSubtask db sid (some uid) (some aby)).map
          (fun d => { d with users := us })) := by
  refine ⟨rfl, rfl, fun s0 hs hid => ?_, fun us => ?_⟩
  · have hne : (db.subtasks.filter (fun s => s.id == sid)).isEmpty = false :=
      filter_isEmpty_false_of_mem hs (by simp [hid])
    simp [assignSubtask, hne]
  · cases hfe : (db.subtasks.filter (fun s => s.id == sid)).isEmpty <;>
      simp [assignSubtask, hfe, Except.map]

/-- Witness for `assignSubtask_overwrite`: Dan (id 4, a member of another
team) is assigned the COMPLETED subtask 3 by a nonexistent user 99. -/
theorem assignSubtask_overwrite_witness :
    assignSubtask fixtureDb 3 (some 4) (some 99) =
      .ok { fixtureDb with subtasks := fixtureDb.subtasks.map (fun r =>
              if r.id == 3 then
                { r with assigned_to := some 4, status := "assigned",
                         progress := "assigned" }
              else r) } :=
  (assignSubtask_overwrite fixtureDb 3 4 99).2.2.1 subDone (by decide) rfl

/-- **C9.** `takeSubtask` performs no team-membership or role check: any
existing user (any role, any team code) successfully claims any available
subtask, and the handler's outcome does not depend on the users table at
all (it never reads it). -/
theorem takeSubtask_no_user_check (db : DB) (sid uid : Nat) :
    (∀ s0 u, db.subtasks.find? (fun s => s.id == sid) = some s0 →
      s0.status = "available" → u ∈ db.users → u.id = uid →
      takeSubtask db sid (some uid) =
        .ok ({ db with subtasks := db.subtasks.map (fun r =>
                 if r.id == sid then
                   { r with assigned_to := some uid, status := "taken",
                            progress := "in_progress" }
                 else r) },
             { s0 with assigned_to := some uid, status := "taken",
                       progress := "in_progress" }))
    ∧ (∀ us, takeSubtask { db with users := us } sid (some uid) =
        (takeSubtask db sid (some uid)).map
          (fun p => ({ p.1 with users := us }, p.2))) := by
  constructor
  · intro s0 u h hs _ _
    simp [takeSubtask, h, hs]
  · intro us
    cases h : db.subtasks.find? (fun s => s.id == sid) with
    | none => simp [takeSubtask, h, Except.map]
    | some s0 =>
      by_cases hs : s0.status = "available"
      · simp [takeSubtask, h, hs, Except.map]
      · simp [takeSubtask, h, hs, Except.map]

/-- Witness for `takeSubtask_no_user_check`: Dan (id 4), an approved
member of the OTHER team ZZ99ZZ, claims available subtask 1 of team
AB12CD; and emptying the users table does not change the outcome. -/
theorem takeSubtask_no_user_check_witness :
    takeSubtask fixtureDb 1 (some 4) =
      .ok ({ fixtureDb with subtasks := fixtureDb.subtasks.map (fun r =>
               if r.id == 1 then
                 { r with assigned_to := some 4, status := "taken",
                          progress := "in_progress" }
               else r) },
           { subAvail with assigned_to := some 4, status := "taken",
                           progress := "in_progress" })
    ∧ takeSubtask { fixtureDb with users := [] } 1 (some 4) =
        (takeSubtask fixtureDb 1 (some 4)).map
          (fun p => ({ p.1 with users := ([] : List UserRow) }, p.2)) :=
  ⟨(takeSubtask_no_user_check fixtureDb 1 4).1 subAvail memberDan rfl rfl
      (by decide) rfl,
   (takeSubtask_no_user_check fixtureDb 1 4).2 []⟩

/-- **C3.** For an authorized `updateProgress` call (assignee, owning
task's creator, or that team's leader) on an existing subtask: progress
is set to the given value and status changes exactly per
`progressStatus`: `completed` forces status completed regardless of the
prior value; `in_progress` on prior status `assigned` yields `taken`;
every other combination leaves status unchanged. -/
theorem updateProgress_status_map (db : DB) (sid uid : Nat) (p : String)
    (s0 : SubtaskRow) (t0 : TaskRow) (u0 : UserRow)
    (hst : findSubtaskWithTask db sid = some (s0, t0))
    (hu : db.users.find? (fun u => u.id == uid) = some u0)
    (hauth : s0.assigned_to = some uid
      ∨ (u0.role = "leader" ∧ u0.team_code = t0.team_code)
      ∨ t0.created_by = some uid) :
    updateProgress db sid (some p) (some uid) =
      .ok { db with subtasks := db.subtasks.map (fun r =>
              if r.id == sid then
                { r with progress := p, status := progressStatus p s0.status }
              else r) }
    ∧ (p = "completed" → progressStatus p s0.status = "completed")
    ∧ (p = "in_progress" → s0.status = "assigned" →
        progressStatus p s0.status = "taken")
    ∧ (p ≠ "completed" → ¬(p = "in_progress" ∧ s0.status = "assigned") →
        progressStatus p s0.status = s0.status) := by
  refine ⟨?_, fun hc => by simp [progressStatus, hc],
          fun hip hs => by simp [progressStatus, hip, hs], fun h1 h2 => ?_⟩
  · rcases hauth with h | ⟨ha, hb⟩ | h
    · simp [updateProgress, hst, hu, h]
    · simp [updateProgress, hst, hu, ha, hb]
    · simp [updateProgress, hst, hu, h]
  · by_cases hip : p = "in_progress"
    · have hs : s0.status ≠ "assigned" := fun hs => h2 ⟨hip, hs⟩
      simp [progressStatus, h1, hip, hs]
    · simp [progressStatus, h1, hip]

/-- Witness for `updateProgress_status_map`: Bob (id 2), the assignee of
subtask 2 (status taken), reports progress `completed`; the status
becomes completed. -/
theorem updateProgress_status_map_witness :
    updateProgress fixtureDb 2 (some "completed") (some 2) =
      .ok { fixtureDb with subtasks := fixtureDb.subtasks.map (fun r =>
              if r.id == 2 then
                { r with progress := "completed",
                         status := progressStatus "completed" subTaken.status }
              else r) }
    ∧ progressStatus "completed" subTaken.status = "completed" :=
  ⟨(updateProgress_status_map fixtureDb 2 2 "completed" subTaken
      { id := 1, title := "t1", description := none, team_code := "AB12CD",
        created_by := some 1, status := "active" } memberBob
      rfl rfl (Or.inl rfl)).1,
   (updateProgress_status_map fixtureDb 2 2 "completed" subTaken
      { id := 1, title := "t1", description := none, team_code := "AB12CD",
        created_by := some 1, status := "active" } memberBob
      rfl rfl (Or.inl rfl)).2.1 rfl⟩

/-- **C4.** `login` answers Unauthorized (401) when no user matches the
email/team pair or the password fails bcrypt verification; Forbidden
(403) with distinct messages for a member whose status is pending versus
rejected; and on success returns the token payload {userId, email, role}
with a 24-hour expiry together with the user record minus the password
hash. -/
theorem login_contract (db : DB) (bcmp : String → String → Bool)
    (email pw tc : String) :
    (db.users.find? (fun u => u.email == email && u.team_code == tc) = none →
      login db bcmp email pw tc =
        .error (ApiError.unauthorized "Invalid credentials"))
    ∧ (∀ u0, db.users.find? (fun u => u.email == email && u.team_code == tc) = some u0 →
        bcmp pw u0.password = false →
      login db bcmp email pw tc =
        .error (ApiError.unauthorized "Invalid credentials"))
    ∧ (∀ u0, db.users.find? (fun u => u.email == email && u.team_code == tc) = some u0 →
        bcmp pw u0.password = true → u0.role = "member" → u0.status = "pending" →
      login db bcmp email pw tc =
        .error (ApiError.forbidden "Your membership is pending approval from the team leader"))
    ∧ (∀ u0, db.users.find? (fun u => u.email == email && u.team_code == tc) = some u0 →
        bcmp pw u0.password = true → u0.role = "member" → u0.status = "rejected" →
      login db bcmp email pw tc =
        .error (ApiError.forbidden "Your membership request was rejected. Please contact your team leader."))
    ∧ ApiError.forbidden "Your membership is pending approval from the team leader" ≠
        ApiError.forbidden "Your membership request was rejected. Please contact your team leader."
    ∧ (∀ u0, db.users.find? (fun u => u.email == email && u.team_code == tc) = some u0 →
        bcmp pw u0.password = true → (u0.role ≠ "member" ∨ u0.status = "approved") →
      login db bcmp email pw tc =
        .ok (u0.sansPassword, ⟨⟨u0.id, u0.email, u0.role⟩, 24⟩)) := by
  refine ⟨fun h => ?_, fun u0 h hb => ?_, fun u0 h hb hr hs => ?_,
          fun u0 h hb hr hs => ?_, by decide, fun u0 h hb hrs => ?_⟩
  · simp [login, h]
  · simp [login, h, hb]
  · simp [login, h, hb, hr, hs]
  · simp [login, h, hb, hr, hs]
  · rcases hrs with hr | hs
    · simp [login, h, hb, hr]
    · simp [login, h, hb, hs]

/-- Witness for `login_contract`: Bob (approved member) logs in, getting
his record minus the hash and a 24-hour token; pending Cara gets the
pending-specific 403. -/
theorem login_contract_witness :
    login fixtureDb (fun p h => h == "hash:" ++ p) "b@x.com" "pwB" "AB12CD" =
      .ok (memberBob.sansPassword, ⟨⟨2, "b@x.com", "member"⟩, 24⟩)
    ∧ login fixtureDb (fun p h => h == "hash:" ++ p) "c@x.com" "pwC" "AB12CD" =
      .error (ApiError.forbidden "Your membership is pending approval from the team leader") :=
  ⟨by
    have h := (login_contract fixtureDb (fun p h => h == "hash:" ++ p)
        "b@x.com" "pwB" "AB12CD").2.2.2.2.2 memberBob (by decide) (by decide)
        (Or.inr rfl)
    simpa using h,
   by
    have h := (login_contract fixtureDb (fun p h => h == "hash:" ++ p)
        "c@x.com" "pwC" "AB12CD").2.2.1 memberCara (by decide) (by decide)
        rfl rfl
    simpa using h⟩

/-- **C6.** `registerMember` fails (team not found) when no team carries
the given code, fails (duplicate) when the email already exists, and
otherwise appends exactly one user row with role `member`, the given
team_code and status `pending`, leaving the teams, tasks and subtasks
tables untouched.  The spec's NotFound/Conflict categories are realized
by this route as 400 responses with the distinct messages shown. -/
theorem registerMember_contract (db : DB) (now newId : Nat)
    (hash email name tc : String) :
    (db.teams.find? (fun t => t.team_code == tc) = none →
      registerMember db now newId hash email name tc =
        .error (ApiError.badRequest "Invalid team code"))
    ∧ (∀ t0 u0, db.teams.find? (fun t => t.team_code == tc) = some t0 →
        db.users.find? (fun u => u.email == email) = some u0 →
      registerMember db now newId hash email name tc =
        .error (ApiError.badRequest "User already exists"))
    ∧ (∀ t0, db.teams.find? (fun t => t.team_code == tc) = some t0 →
        db.users.find? (fun u => u.email == email) = none →
      registerMember db now newId hash email name tc =
        .ok { db with users := db.users ++
                [{ id := newId, email := email, password := hash,
                   name := name, role := "member", team_code := tc,
                   status := "pending", approved_by := none,
                   approved_at := none, rejected_by := none,
                   rejected_at := none, updated_at := now }] }
      ∧ (∀ db', registerMember db now newId hash email name tc = .ok db' →
          db'.teams = db.teams ∧ db'.tasks = db.tasks
          ∧ db'.subtasks = db.subtasks
          ∧ db'.users.length = db.users.length + 1)) := by
  refine ⟨fun h => ?_, fun t0 u0 ht hu => ?_, fun t0 ht hu => ⟨?_, ?_⟩⟩
  · simp [registerMember, h]
  · simp [registerMember, ht, hu]
  · simp [registerMember, ht, hu]
  · intro db' h'
    simp only [registerMember, ht, hu, Option.isNone_some, Option.isSome_some,
      Bool.false_eq_true, if_false, Option.isNone_none] at h'
    simp only [Option.isSome_none, Bool.false_eq_true, if_false] at h'
    rw [← Except.ok.inj h']
    simp

/-- Witness for `registerMember_contract`: Eve registers for team AB12CD
with a fresh email; exactly her pending member row is appended. -/
theorem registerMember_contract_witness :
    registerMember fixtureDb 30 5 "hash:pwE" "e@x.com" "Eve" "AB12CD" =
      .ok { fixtureDb with users := fixtureDb.users ++
              [{ id := 5, email := "e@x.com", password := "hash:pwE",
                 name := "Eve", role := "member", team_code := "AB12CD",
                 status := "pending", approved_by := none,
                 approved_at := none, rejected_by := none,
                 rejected_at := none, updated_at := 30 }] } :=
  ((registerMember_contract fixtureDb 30 5 "hash:pwE" "e@x.com" "Eve"
      "AB12CD").2.2
    { id := 1, team_code := "AB12CD", team_name := "TeamA",
      leader_id := some 1 } (by decide) (by decide)).1

/-- **C5.** `deleteTeamMember`: Forbidden unless `leaderId` is a leader of
that team; rejected when deleting oneself; NotFound unless `memberId` is
a member of that team; on success (one transaction) every subtask
assigned to the member is released and the member's user row is deleted,
so no subtask anywhere keeps `assigned_to = memberId`.  An error result
carries no database, modelling that no write becomes visible. -/
theorem deleteTeamMember_contract (db : DB) (tc : String) (mid lid : Nat) :
    (db.users.find? (fun u =>
        u.id == lid && u.team_code == tc && u.role == "leader") = none →
      deleteTeamMember db tc mid (some lid) =
        .error (ApiError.forbidden "Only team leader can delete members"))
    ∧ (∀ l0, db.users.find? (fun u =>
          u.id == lid && u.team_code == tc && u.role == "leader") = some l0 →
        mid = lid →
      deleteTeamMember db tc mid (some lid) =
        .error (ApiError.badRequest "Cannot delete yourself"))
    ∧ (∀ l0, db.users.find? (fun u =>
          u.id == lid && u.team_code == tc && u.role == "leader") = some l0 →
        mid ≠ lid →
        db.users.find? (fun u =>
          u.id == mid && u.team_code == tc && u.role == "member") = none →
      deleteTeamMember db tc mid (some lid) =
        .error (ApiError.notFound "Member not found in your team"))
    ∧ (∀ l0 m0, db.users.find? (fun u =>
          u.id == lid && u.team_code == tc && u.role == "leader") = some l0 →
        mid ≠ lid →
        db.users.find? (fun u =>
          u.id == mid && u.team_code == tc && u.role == "member") = some m0 →
      deleteTeamMember db tc mid (some lid) =
        .ok { db with subtasks := db.subtasks.map (releaseSubtask mid),
                      users := db.users.filter (fun u => u.id != mid) }
      ∧ ∀ s ∈ db.subtasks.map (releaseSubtask mid),
          s.assigned_to ≠ some mid) := by
  refine ⟨fun h => ?_, fun l0 hl he => ?_, fun l0 hl hne hm => ?_,
          fun l0 m0 hl hne hm => ⟨?_, ?_⟩⟩
  · simp [deleteTeamMember, h]
  · simp [deleteTeamMember, hl, he]
  · simp [deleteTeamMember, hl, hne, hm]
  · simp [deleteTeamMember, hl, hne, hm]
  · intro s hs
    rcases List.mem_map.mp hs with ⟨x, _, hx⟩
    rw [← hx]
    unfold releaseSubtask
    by_cases hax : x.assigned_to == some mid
    · simp [hax]
    · simp only [hax, Bool.false_eq_true, if_false]
      simpa using hax

/-- Witness for `deleteTeamMember_contract`: Alice (leader) deletes Bob
(id 2); Bob's subtasks 2 and 3 are released and his row is gone. -/
theorem deleteTeamMember_contract_witness :
    deleteTeamMember fixtureDb "AB12CD" 2 (some 1) =
      .ok { fixtureDb with
            subtasks := fixtureDb.subtasks.map (releaseSubtask 2),
            users := fixtureDb.users.filter (fun u => u.id != 2) }
    ∧ ∀ s ∈ fixtureDb.subtasks.map (releaseSubtask 2),
        s.assigned_to ≠ some 2 :=
  (deleteTeamMember_contract fixtureDb "AB12CD" 2 1).2.2.2 leaderAlice
    memberBob (by decide) (by decide) (by decide)

/-- **C8.** When `deleteTeamMember` succeeds, the subtask table is exactly
the pointwise `releaseSubtask` image: only `assigned_to` and `status` of
the released rows are written — `progress` and every other field stay as
they were, and rows not assigned to the member are untouched — so a
released subtask keeps `progress` values such as `in_progress` under its
new `available` status. -/
theorem deleteTeamMember_frame (db : DB) (tc : String) (mid lid : Nat)
    (db' : DB) (h : deleteTeamMember db tc mid (some lid) = .ok db') :
    db'.subtasks = db.subtasks.map (releaseSubtask mid)
    ∧ ∀ s : SubtaskRow,
        (releaseSubtask mid s).progress = s.progress
        ∧ (releaseSubtask mid s).id = s.id
        ∧ (releaseSubtask mid s).task_id = s.task_id
        ∧ (releaseSubtask mid s).title = s.title
        ∧ (releaseSubtask mid s).description = s.description
        ∧ (releaseSubtask mid s).deadline = s.deadline
        ∧ (s.assigned_to = some mid →
            (releaseSubtask mid s).status = "available"
            ∧ (releaseSubtask mid s).assigned_to = none)
        ∧ (s.assigned_to ≠ some mid → releaseSubtask mid s = s) := by
  constructor
  · simp only [deleteTeamMember] at h
    split at h
    · exact absurd h (by simp)
    · split at h
      · exact absurd h (by simp)
      · split at h
        · exact absurd h (by simp)
        · rw [← Except.ok.inj h]
  · intro s
    unfold releaseSubtask
    by_cases hax : s.assigned_to = some mid
    · simp [hax]
    · have : (s.assigned_to == some mid) = false := by simpa using hax
      simp [this, hax]

/-- Witness for `deleteTeamMember_frame`: after Alice deletes Bob, the
released subtask 2 still carries progress `in_progress` although its
status is back to `available`. -/
theorem deleteTeamMember_frame_witness :
    (releaseSubtask 2 subTaken).status = "available"
    ∧ (releaseSubtask 2 subTaken).progress = "in_progress"
    ∧ { fixtureDb with
        subtasks := fixtureDb.subtasks.map (releaseSubtask 2),
        users := fixtureDb.users.filter (fun u => u.id != 2) }.subtasks =
      fixtureDb.subtasks.map (releaseSubtask 2) := by
  have h := deleteTeamMember_frame fixtureDb "AB12CD" 2 1
    { fixtureDb with
      subtasks := fixtureDb.subtasks.map (releaseSubtask 2),
      users := fixtureDb.users.filter (fun u => u.id != 2) } rfl
  exact ⟨((h.2 subTaken).2.2.2.2.2.2.1 rfl).1,
         ((h.2 subTaken).1).trans rfl, h.1⟩

/-- **C2 counterexample.** The claim says approveMember and rejectMember
condition their WHERE clause on the user's current status, so that a
second pending→approved attempt, or rejecting an already-approved
member, affects zero rows, is reported NotFound/AlreadyProcessed and
leaves the row unchanged.  The code conditions only on id, team_code and
role: starting from pending Cara (id 3), a first approval succeeds, a
SECOND approval on the already-approved row also succeeds and re-stamps
approved_at/updated_at; and rejectMember on approved Bob (id 2) succeeds,
moving approved→rejected. -/
theorem member_status_guard_counterexample :
    approveMember fixtureDb 10 (some 3) (some "AB12CD") (some 1) =
      .ok { fixtureDb with
            users := [leaderAlice, memberBob, approveSet 10 1 memberCara,
                      memberDan] }
    ∧ approveMember
        { fixtureDb with
          users := [leaderAlice, memberBob, approveSet 10 1 memberCara,
                    memberDan] }
        20 (some 3) (some "AB12CD") (some 1) =
      .ok { fixtureDb with
            users := [leaderAlice, memberBob,
                      approveSet 20 1 (approveSet 10 1 memberCara),
                      memberDan] }
    ∧ approveSet 20 1 (approveSet 10 1 memberCara) ≠ approveSet 10 1 memberCara
    ∧ rejectMember fixtureDb 20 (some 2) (some "AB12CD") (some 1) =
      .ok { fixtureDb with
            users := [leaderAlice, rejectSet 20 1 memberBob, memberCara,
                      memberDan] } :=
  ⟨rfl, rfl, by decide, rfl⟩

/-- **C2 (amended).** approveMember and rejectMember guard their UPDATE
only by `memberWhere` (id, team_code, role = member — NOT the current
status): they succeed on a matching member in ANY current status,
setting it to approved resp. rejected and recording the acting user and
timestamp; with no matching member-role user in that team they affect
zero rows and answer NotFound ("or already processed").  Only reApprove
additionally conditions on current status `rejected`, so it alone
reports NotFound/AlreadyProcessed when the user is not currently
rejected. -/
theorem member_transitions_amended (db : DB) (now uid aby rby : Nat)
    (tc : String) :
    (∀ u, u ∈ db.users → memberWhere uid tc u = true →
      approveMember db now (some uid) (some tc) (some aby) =
        .ok { db with users := db.users.map (fun v =>
                if memberWhere uid tc v then approveSet now aby v else v) }
      ∧ approveSet now aby u ∈ (db.users.map (fun v =>
          if memberWhere uid tc v then approveSet now aby v else v))
      ∧ (approveSet now aby u).status = "approved"
      ∧ (approveSet now aby u).approved_by = some aby
      ∧ (approveSet now aby u).approved_at = some now
      ∧ (approveSet now aby u).updated_at = now
      ∧ (approveSet now aby u).email = u.email)
    ∧ (∀ u, u ∈ db.users → memberWhere uid tc u = true →
      rejectMember db now (some uid) (some tc) (some rby) =
        .ok { db with users := db.users.map (fun v =>
                if memberWhere uid tc v then rejectSet now rby v else v) }
      ∧ rejectSet now rby u ∈ (db.users.map (fun v =>
          if memberWhere uid tc v then rejectSet now rby v else v))
      ∧ (rejectSet now rby u).status = "rejected"
      ∧ (rejectSet now rby u).rejected_by = some rby
      ∧ (rejectSet now rby u).rejected_at = some now
      ∧ (rejectSet now rby u).updated_at = now)
    ∧ ((∀ u ∈ db.users, memberWhere uid tc u = false) →
      approveMember db now (some uid) (some tc) (some aby) =
        .error (ApiError.notFound "User not found or already processed")
      ∧ rejectMember db now (some uid) (some tc) (some rby) =
        .error (ApiError.notFound "User not found or already processed"))
    ∧ ((∀ u ∈ db.users, reApproveWhere uid tc u = false) →
      reApprove db now (some uid) (some tc) (some aby) =
        .error (ApiError.notFound "Rejected member not found or already processed"))
    ∧ (∀ u, u ∈ db.users → reApproveWhere uid tc u = true →
      reApprove db now (some uid) (some tc) (some aby) =
        .ok { db with users := db.users.map (fun v =>
                if reApproveWhere uid tc v then reApproveSet now aby v else v) }
      ∧ (reApproveSet now aby u).status = "approved"
      ∧ (reApproveSet now aby u).rejected_by = none
      ∧ (reApproveSet now aby u).rejected_at = none) := by
  refine ⟨fun u hu hw => ?_, fun u hu hw => ?_, fun hall => ?_,
          fun hall => ?_, fun u hu hw => ?_⟩
  · have hne := filter_isEmpty_false_of_mem hu hw
    refine ⟨by simp [approveMember, hne], ?_, rfl, rfl, rfl, rfl, rfl⟩
    have := List.mem_map_of_mem
      (fun v => if memberWhere uid tc v then approveSet now aby v else v) hu
    simpa [hw] using this
  · have hne := filter_isEmpty_false_of_mem hu hw
    refine ⟨by simp [rejectMember, hne], ?_, rfl, rfl, rfl, rfl⟩
    have := List.mem_map_of_mem
      (fun v => if memberWhere uid tc v then rejectSet now rby v else v) hu
    simpa [hw] using this
  · have he := filter_isEmpty_of_forall_false hall
    exact ⟨by simp [approveMember, he], by simp [rejectMember, he]⟩
  · have he := filter_isEmpty_of_forall_false hall
    simp [reApprove, he]
  · have hne := filter_isEmpty_false_of_mem hu hw
    exact ⟨by simp [reApprove, hne], rfl, rfl, rfl⟩

/-- Witness for `member_transitions_amended`: rejecting the APPROVED
member Bob (id 2) succeeds — the status-agnostic WHERE in action — and
re-approving him right afterwards via reApprove also succeeds. -/
theorem member_transitions_amended_witness :
    rejectMember fixtureDb 20 (some 2) (some "AB12CD") (some 1) =
      .ok { fixtureDb with users := fixtureDb.users.map (fun v =>
              if memberWhere 2 "AB12CD" v then rejectSet 20 1 v else v) }
    ∧ (rejectSet 20 1 memberBob).status = "rejected"
    ∧ reApprove fixtureDb 40 (some 3) (some "AB12CD") (some 1) =
      .error (ApiError.notFound "Rejected member not found or already processed") :=
  ⟨((member_transitions_amended fixtureDb 20 2 0 1 "AB12CD").2.1 memberBob
      (by decide) (by decide)).1,
   ((member_transitions_amended fixtureDb 20 2 0 1 "AB12CD").2.1 memberBob
      (by decide) (by decide)).2.2.1,
   (member_transitions_amended fixtureDb 40 3 1 0 "AB12CD").2.2.2.1
      (by decide)⟩

/-- Two predicates agreeing on the image of `m` give equal `any` over a
mapped list. -/
theorem any_map_congr {α β : Type} (l : List α) (m : α → β) (f g : β → Bool)
    (h : ∀ a ∈ l, f (m a) = g (m a)) :
    (l.map m).any f = (l.map m).any g := by
  induction l with
  | nil => rfl
  | cons a l ih =>
    simp only [List.map_cons, List.any_cons, h a (by simp)]
    rw [ih (fun x hx => h x (by simp [hx]))]

/-- **C7.** The two near-duplicate `GET /team/:teamCode/status/:status`
implementations compute the same task list for the `completed` filter and
agree under `active` on every task having at least one subtask; they
disagree exactly on tasks with zero subtasks under `active`: the second
(whose condition adds `OR s.status IS NULL`) includes such a task, the
first (condition `s.status != 'completed'` alone, unknown on the
null-extended join row) excludes it. -/
theorem statusRoutes_agreement (db : DB) (tc : String) :
    listTasksByStatusV1 db tc "completed" = listTasksByStatusV2 db tc "completed"
    ∧ ∀ t ∈ db.tasks, t.team_code = tc →
        (subtasksOf db t.id ≠ [] →
          (t ∈ listTasksByStatusV1 db tc "active" ↔
           t ∈ listTasksByStatusV2 db tc "active"))
        ∧ (subtasksOf db t.id = [] →
          t ∉ listTasksByStatusV1 db tc "active"
          ∧ t ∈ listTasksByStatusV2 db tc "active") := by
  constructor
  · unfold listTasksByStatusV1 listTasksByStatusV2
    apply List.filter_congr
    intro t _
    simp [taskPassesV1, taskPassesV2]
  · intro t ht htc
    constructor
    · intro hne
      have hj : leftJoinRows db t = (subtasksOf db t.id).map some := by
        unfold leftJoinRows
        rw [if_neg (by simpa [List.isEmpty_iff] using hne)]
      have hp : taskPassesV1 db "active" t = taskPassesV2 db "active" t := by
        simp only [taskPassesV1, taskPassesV2, hj]
        norm_num
        exact any_map_congr _ some _ _
          (fun s _ => by simp [sqlStatusNeCompleted, sqlStatusIsNull])
      unfold listTasksByStatusV1 listTasksByStatusV2
      simp [List.mem_filter, hp]
    · intro he
      have hj : leftJoinRows db t = [none] := by
        unfold leftJoinRows
        rw [if_pos (by simp [List.isEmpty_iff, he])]
      constructor
      · unfold listTasksByStatusV1
        simp [List.mem_filter, taskPassesV1, hj, sqlStatusNeCompleted]
      · unfold listTasksByStatusV2
        refine List.mem_filter.mpr ⟨ht, ?_⟩
        simp [taskPassesV2, hj, sqlStatusNeCompleted, sqlStatusIsNull, htc]

/-- Witness for `statusRoutes_agreement`: fixture task 2 has zero
subtasks; the first route's `active` list excludes it, the second's
includes it. -/
theorem statusRoutes_agreement_witness :
    ({ id := 2, title := "t2", description := none, team_code := "AB12CD",
       created_by := some 1, status := "active" } : TaskRow) ∉
      listTasksByStatusV1 fixtureDb "AB12CD" "active"
    ∧ ({ id := 2, title := "t2", description := none, team_code := "AB12CD",
         created_by := some 1, status := "active" } : TaskRow) ∈
      listTasksByStatusV2 fixtureDb "AB12CD" "active" :=
  ((statusRoutes_agreement fixtureDb "AB12CD").2
    { id := 2, title := "t2", description := none, team_code := "AB12CD",
      created_by := some 1, status := "active" }
    (by decide) rfl).2 (by decide)
